import Mathlib

/-!
Verification of the whatsapp-service session-state mirror and HTTP facade.

The service (src/index.js) keeps five module-level variables
(lastQr, isReady, isAuthenticated, lastAuthFailure, lastDisconnect),
mutates them in five Chat Client lifecycle-event handlers, and exposes
them through the /health, /status, /qr and /chats endpoints.  We embed
the state record, the handlers and the endpoint functions below and
prove the spec's claims about them.

JavaScript `null`/`undefined` string variables are modelled as
`Option String`; JavaScript truthiness on strings (where the empty
string is falsy, as in `msg || "unknown"` and `!lastQr`) is modelled
explicitly by `jsTruthy` / `jsOrString`.
-/

namespace WhatsappService

/-- The five module-level session-state variables of src/index.js,
plus the list of delays (in milliseconds) of re-initialization calls
scheduled with setTimeout by the disconnected handler. -/
structure State where
  lastQr : Option String
  isReady : Bool
  isAuthenticated : Bool
  lastAuthFailure : Option String
  lastDisconnect : Option String
  scheduledInits : List Nat
deriving DecidableEq, Repr

/-- Initial state: `lastQr = null`, `isReady = false`,
`isAuthenticated = false`, `lastAuthFailure = null`,
`lastDisconnect = null`, nothing scheduled. -/
def initState : State :=
  { lastQr := none
    isReady := false
    isAuthenticated := false
    lastAuthFailure := none
    lastDisconnect := none
    scheduledInits := [] }

/-- Lifecycle events emitted by the Chat Client, as handled in
src/index.js.  The `qr` event carries the result of the
`qrcode.toDataURL` encoding performed inside the handler:
`some dataUrl` when encoding succeeded, `none` when it threw.
`auth_failure` and `disconnected` carry their optional reason string
(`none` models an absent / undefined argument). -/
inductive WaEvent where
  | qr (encoded : Option String)
  | ready
  | authenticated
  | auth_failure (msg : Option String)
  | disconnected (reason : Option String)
deriving DecidableEq, Repr

/-- JavaScript truthiness of an optional string:
`null`/`undefined` and the empty string are falsy. -/
def jsTruthy (v : Option String) : Bool :=
  match v with
  | none => false
  | some s => if s = "" then false else true

/-- JavaScript `v || fallback` on an optional string: returns the
string when it is present and nonempty, otherwise the fallback. -/
def jsOrString (v : Option String) (fallback : String) : String :=
  match v with
  | none => fallback
  | some s => if s = "" then fallback else s

/-- The five `client.on(...)` handlers of src/index.js, one step of the
session-state mirror.

* `qr` (encoding succeeded): `lastQr = dataUrl; isAuthenticated = false;
  isReady = false`.
* `qr` (encoding threw): the catch block only logs, state untouched.
* `ready`: `isReady = true`.
* `authenticated`: `isAuthenticated = true; lastAuthFailure = null;
  lastQr = null`.
* `auth_failure`: `isAuthenticated = false;
  lastAuthFailure = msg || "unknown"`.
* `disconnected`: `isReady = false; lastDisconnect = reason || "unknown"`,
  then `setTimeout(() => client.initialize(), 5000)` schedules one
  re-initialization after 5000 ms. -/
def handleEvent (s : State) (e : WaEvent) : State :=
  match e with
  | .qr (some dataUrl) =>
      { s with lastQr := some dataUrl, isAuthenticated := false, isReady := false }
  | .qr none => s
  | .ready => { s with isReady := true }
  | .authenticated =>
      { s with isAuthenticated := true, lastAuthFailure := none, lastQr := none }
  | .auth_failure msg =>
      { s with isAuthenticated := false,
               lastAuthFailure := some (jsOrString msg "unknown") }
  | .disconnected reason =>
      { s with isReady := false,
               lastDisconnect := some (jsOrString reason "unknown"),
               scheduledInits := s.scheduledInits ++ [5000] }

/-- Apply a sequence of lifecycle events in order. -/
def applyEvents (s : State) (es : List WaEvent) : State :=
  es.foldl handleEvent s

/-- Response of `GET /health`: status 200 with
`{ ok: true, ready, authenticated, auth_failure }`. -/
structure HealthResponse where
  status : Nat
  ok : Bool
  ready : Bool
  authenticated : Bool
  auth_failure : Option String
deriving DecidableEq, Repr

/-- `app.get("/health", ...)` of src/index.js. -/
def healthEndpoint (s : State) : HealthResponse :=
  { status := 200
    ok := true
    ready := s.isReady
    authenticated := s.isAuthenticated
    auth_failure := s.lastAuthFailure }

/-- Response of `GET /status`: status 200 with
`{ ready, authenticated, auth_failure, disconnected, qr_available }`. -/
structure StatusResponse where
  status : Nat
  ready : Bool
  authenticated : Bool
  auth_failure : Option String
  disconnected : Option String
  qr_available : Bool
deriving DecidableEq, Repr

/-- `app.get("/status", ...)` of src/index.js; `qr_available` is
`!!lastQr`, i.e. JavaScript truthiness of `lastQr`. -/
def statusEndpoint (s : State) : StatusResponse :=
  { status := 200
    ready := s.isReady
    authenticated := s.isAuthenticated
    auth_failure := s.lastAuthFailure
    disconnected := s.lastDisconnect
    qr_available := jsTruthy s.lastQr }

/-- Response of `GET /qr`: status 200 with `{ qr: <string> }`. -/
structure QrResponse where
  status : Nat
  qr : String
deriving DecidableEq, Repr

/-- `app.get("/qr", ...)` of src/index.js:
`if (!lastQr) return res.json({ qr: "" }); res.json({ qr: lastQr })`. -/
def qrEndpoint (s : State) : QrResponse :=
  if jsTruthy s.lastQr then { status := 200, qr := s.lastQr.getD "" }
  else { status := 200, qr := "" }

/-- A chat object as returned by the Chat Client's `getChats()`, with
the fields src/index.js reads: `idSerialized` models `c.id?._serialized`
(absent when `c.id` is null/undefined), `name` and `formattedTitle` are
optional strings, `isGroup` a boolean. -/
structure Chat where
  idSerialized : Option String
  name : Option String
  formattedTitle : Option String
  isGroup : Bool
deriving DecidableEq, Repr

/-- One element of the /chats response array. -/
structure ChatSummary where
  id : Option String
  name : Option String
  isGroup : Bool
deriving DecidableEq, Repr

/-- The projection inside `chats.map(...)` of src/index.js:
`{ id: c.id?._serialized, name: c.name || c.formattedTitle,
isGroup: c.isGroup }`. -/
def projectChat (c : Chat) : ChatSummary :=
  { id := c.idSerialized
    name := match c.name with
            | none => c.formattedTitle
            | some n => if n = "" then c.formattedTitle else some n
    isGroup := c.isGroup }

/-- Body of the /chats response: either the projected array (on
success) or `{ error: <message> }` (on failure). -/
inductive ChatsBody where
  | chats (items : List ChatSummary)
  | err (message : String)
deriving DecidableEq, Repr

/-- Response of `GET /chats`. -/
structure ChatsResponse where
  status : Nat
  body : ChatsBody
deriving DecidableEq, Repr

/-- `app.get("/chats", ...)` of src/index.js, as a function of the
outcome of the single awaited `client.getChats()` call: on success,
status 200 with the projected array; when the call throws or rejects
with message `m`, status 500 with `{ error: m }`.  The handler makes
exactly one `getChats` call and does not retry. -/
def chatsEndpoint (result : Except String (List Chat)) : ChatsResponse :=
  match result with
  | .ok cs => { status := 200, body := .chats (cs.map projectChat) }
  | .error m => { status := 500, body := .err m }

/-- Well-ordered event delivery, checked along the run: every `ready`
event arrives while `isAuthenticated` is already true, and every
`auth_failure` event arrives while `isReady` is false.  This is the
event-ordering discipline the Chat Client is assumed to follow. -/
def wellOrderedFrom (s : State) : List WaEvent → Bool
  | [] => true
  | e :: es =>
    (match e with
     | .ready => s.isAuthenticated
     | .auth_failure _ => !s.isReady
     | _ => true) && wellOrderedFrom (handleEvent s e) es

/-- Helper: the invariant "ready implies authenticated" is preserved
along any well-ordered run of lifecycle events. -/
theorem invariant_of_wellOrderedFrom (es : List WaEvent) :
    ∀ s : State, (s.isReady = true → s.isAuthenticated = true) →
      wellOrderedFrom s es = true →
      ((applyEvents s es).isReady = true → (applyEvents s es).isAuthenticated = true) := by
  induction es with
  | nil => intro s hinv _; exact hinv
  | cons e es ih =>
    intro s hinv hwo
    simp only [wellOrderedFrom, Bool.and_eq_true] at hwo
    obtain ⟨he, hrest⟩ := hwo
    refine ih (handleEvent s e) ?_ hrest
    cases e with
    | qr enc =>
      cases enc with
      | none => exact hinv
      | some d => intro hr; simp [handleEvent] at hr
    | ready => intro _; simpa [handleEvent] using he
    | authenticated => intro _; simp [handleEvent]
    | auth_failure msg =>
      intro hr
      exfalso
      simp only [handleEvent] at hr
      simp [hr] at he
    | disconnected reason => intro hr; simp [handleEvent] at hr

/-- C1 counterexample: the single event sequence consisting of one
`ready` event, applied to the initial state, yields a reachable state
with `ready = true` and `authenticated = false`, because the ready
handler sets only `isReady` and never touches `isAuthenticated`.  This
refutes the claim as stated, which quantifies over every sequence of
lifecycle events. -/
theorem C1_counterexample :
    (applyEvents initState [WaEvent.ready]).isReady = true ∧
    (applyEvents initState [WaEvent.ready]).isAuthenticated = false := by
  decide

/-- C1 (amended): for every sequence of lifecycle events that is
well-ordered — each `ready` event is delivered while `authenticated`
is already true and each `auth_failure` event is delivered while
`ready` is false — the state reached from the initial state satisfies:
whenever `ready` is true, `authenticated` is also true. -/
theorem C1_wellordered_ready_implies_authenticated (es : List WaEvent)
    (h : wellOrderedFrom initState es = true) :
    (applyEvents initState es).isReady = true →
    (applyEvents initState es).isAuthenticated = true :=
  invariant_of_wellOrderedFrom es initState (by decide) h

/-- C1 witness: the well-ordered sequence `authenticated` then `ready`
satisfies the amended invariant. -/
theorem C1_witness :
    wellOrderedFrom initState [WaEvent.authenticated, WaEvent.ready] = true ∧
    ((applyEvents initState [WaEvent.authenticated, WaEvent.ready]).isReady = true →
     (applyEvents initState [WaEvent.authenticated, WaEvent.ready]).isAuthenticated = true) :=
  ⟨by decide, C1_wellordered_ready_implies_authenticated _ (by decide)⟩

/-- C2: for every state and every successfully encoded qr payload, the
qr handler stores the encoded data URL into `lastQr`, clears
`isAuthenticated` and `isReady`, and a subsequent GET /qr returns that
newly encoded payload with status 200. -/
theorem C2_qr_success_stores_and_serves (s : State) (dataUrl : String) :
    (handleEvent s (WaEvent.qr (some dataUrl))).lastQr = some dataUrl ∧
    (handleEvent s (WaEvent.qr (some dataUrl))).isAuthenticated = false ∧
    (handleEvent s (WaEvent.qr (some dataUrl))).isReady = false ∧
    (qrEndpoint (handleEvent s (WaEvent.qr (some dataUrl)))).qr = dataUrl ∧
    (qrEndpoint (handleEvent s (WaEvent.qr (some dataUrl)))).status = 200 := by
  refine ⟨rfl, rfl, rfl, ?_, ?_⟩ <;>
    by_cases h : dataUrl = "" <;>
    simp [qrEndpoint, handleEvent, jsTruthy, h]

/-- C3: when qr-image encoding fails (the `qrcode.toDataURL` call
throws), the handler leaves all five session-state fields exactly as
they were; the catch block only logs. -/
theorem C3_qr_failure_leaves_state_unchanged (s : State) :
    (handleEvent s (WaEvent.qr none)).lastQr = s.lastQr ∧
    (handleEvent s (WaEvent.qr none)).isReady = s.isReady ∧
    (handleEvent s (WaEvent.qr none)).isAuthenticated = s.isAuthenticated ∧
    (handleEvent s (WaEvent.qr none)).lastAuthFailure = s.lastAuthFailure ∧
    (handleEvent s (WaEvent.qr none)).lastDisconnect = s.lastDisconnect :=
  ⟨rfl, rfl, rfl, rfl, rfl⟩

/-- C4: from any state, an `authenticated` event sets
`isAuthenticated = true` and clears both `lastAuthFailure` and
`lastQr`; after `authenticated` followed by `ready`, GET /health
returns exactly ok = true, ready = true, authenticated = true,
auth_failure = null, and GET /qr returns the empty string. -/
theorem C4_authenticated_then_ready_snapshots (s : State) :
    (handleEvent s WaEvent.authenticated).isAuthenticated = true ∧
    (handleEvent s WaEvent.authenticated).lastAuthFailure = none ∧
    (handleEvent s WaEvent.authenticated).lastQr = none ∧
    healthEndpoint (applyEvents s [WaEvent.authenticated, WaEvent.ready]) =
      { status := 200, ok := true, ready := true,
        authenticated := true, auth_failure := none } ∧
    qrEndpoint (applyEvents s [WaEvent.authenticated, WaEvent.ready]) =
      { status := 200, qr := "" } :=
  ⟨rfl, rfl, rfl, rfl, rfl⟩

/-- C5 counterexample: an `auth_failure` event whose provided reason
is the empty string.  A reason is provided, so the claim as stated
requires `lastAuthFailure` to hold that reason (the empty string), but
the handler computes `msg || "unknown"` and the empty string is falsy
in JavaScript, so the code stores the sentinel "unknown" instead. -/
theorem C5_counterexample :
    (handleEvent initState (WaEvent.auth_failure (some ""))).lastAuthFailure
      = some "unknown" ∧
    (handleEvent initState (WaEvent.auth_failure (some ""))).lastAuthFailure
      ≠ some "" := by
  decide

/-- C5 (amended): every `auth_failure` event sets
`isAuthenticated = false`; the handler stores the literal "unknown"
into `lastAuthFailure` exactly when no reason is provided or the
provided reason is the empty string, and stores the provided reason
text when it is a nonempty string. -/
theorem C5_auth_failure_stores_reason (s : State) (msg : Option String) :
    (handleEvent s (WaEvent.auth_failure msg)).isAuthenticated = false ∧
    ((msg = none ∨ msg = some "") →
      (handleEvent s (WaEvent.auth_failure msg)).lastAuthFailure = some "unknown") ∧
    (∀ m : String, msg = some m → m ≠ "" →
      (handleEvent s (WaEvent.auth_failure msg)).lastAuthFailure = some m) := by
  refine ⟨rfl, ?_, ?_⟩
  · rintro (rfl | rfl) <;> rfl
  · rintro m rfl hm
    simp [handleEvent, jsOrString, hm]

/-- C5 witness: at the concrete reasons "bad-session" and absent, the
amended statement evaluates as proved. -/
theorem C5_witness :
    (handleEvent initState (WaEvent.auth_failure (some "bad-session"))).lastAuthFailure
      = some "bad-session" ∧
    (handleEvent initState (WaEvent.auth_failure none)).lastAuthFailure
      = some "unknown" :=
  ⟨(C5_auth_failure_stores_reason initState (some "bad-session")).2.2
      "bad-session" rfl (by decide),
   (C5_auth_failure_stores_reason initState none).2.1 (Or.inl rfl)⟩

/-- C6 counterexample: a `disconnected` event whose provided reason is
the empty string.  The claim as stated says the handler stores the
reason (falling back to "unknown" only when none is provided), but the
handler computes `reason || "unknown"` and the empty string is falsy
in JavaScript, so the code stores "unknown" although a reason was
provided. -/
theorem C6_counterexample :
    (handleEvent initState (WaEvent.disconnected (some ""))).lastDisconnect
      = some "unknown" ∧
    (handleEvent initState (WaEvent.disconnected (some ""))).lastDisconnect
      ≠ some "" := by
  decide

/-- C6 (amended): from any state, a `disconnected` event sets
`isReady = false`, stores the provided reason into `lastDisconnect`
when it is a nonempty string and "unknown" when the reason is absent
or empty, and unconditionally appends exactly one scheduled
re-initialization of the Chat Client with a fixed 5000 ms delay —
regardless of how many are already scheduled, so there is no retry
ceiling. -/
theorem C6_disconnected_schedules_reinit (s : State) (reason : Option String) :
    (handleEvent s (WaEvent.disconnected reason)).isReady = false ∧
    ((reason = none ∨ reason = some "") →
      (handleEvent s (WaEvent.disconnected reason)).lastDisconnect = some "unknown") ∧
    (∀ r : String, reason = some r → r ≠ "" →
      (handleEvent s (WaEvent.disconnected reason)).lastDisconnect = some r) ∧
    (handleEvent s (WaEvent.disconnected reason)).scheduledInits
      = s.scheduledInits ++ [5000] := by
  refine ⟨rfl, ?_, ?_, rfl⟩
  · rintro (rfl | rfl) <;> rfl
  · rintro r rfl hr
    simp [handleEvent, jsOrString, hr]

/-- C6 witness: at the concrete reason "NAVIGATION" from the initial
state, the amended statement evaluates as proved. -/
theorem C6_witness :
    (handleEvent initState (WaEvent.disconnected (some "NAVIGATION"))).lastDisconnect
      = some "NAVIGATION" ∧
    (handleEvent initState (WaEvent.disconnected (some "NAVIGATION"))).scheduledInits
      = [5000] :=
  ⟨(C6_disconnected_schedules_reinit initState (some "NAVIGATION")).2.2.1
      "NAVIGATION" rfl (by decide),
   (C6_disconnected_schedules_reinit initState (some "NAVIGATION")).2.2.2⟩

/-- C7: in every state, GET /qr answers with status 200; it returns
the empty string when `lastQr` is absent, and returns the stored
payload whenever `lastQr` holds a string (when that string is empty,
the falsy-check branch returns the empty string, which coincides with
the stored payload, so the returned value always equals the stored
payload). -/
theorem C7_qr_endpoint_serves_lastQr (s : State) :
    (qrEndpoint s).status = 200 ∧
    (s.lastQr = none → (qrEndpoint s).qr = "") ∧
    (∀ q : String, s.lastQr = some q → (qrEndpoint s).qr = q) := by
  refine ⟨?_, ?_, ?_⟩
  · unfold qrEndpoint
    split <;> rfl
  · intro h
    simp [qrEndpoint, jsTruthy, h]
  · rintro q h
    by_cases hq : q = "" <;> simp [qrEndpoint, jsTruthy, h, hq]

/-- C7 witness: at the initial state (no pending code) and at a state
holding a concrete payload, the statement evaluates as proved. -/
theorem C7_witness :
    (qrEndpoint initState).qr = "" ∧
    (qrEndpoint { initState with lastQr := some "data:image/png;base64,AAA" }).qr
      = "data:image/png;base64,AAA" :=
  ⟨(C7_qr_endpoint_serves_lastQr initState).2.1 rfl,
   (C7_qr_endpoint_serves_lastQr
      { initState with lastQr := some "data:image/png;base64,AAA" }).2.2
      "data:image/png;base64,AAA" rfl⟩

/-- C8: for every chat list returned by the underlying `getChats`
call, GET /chats answers with status 200 and one projected object per
input chat; each output carries the chat's serialized id and group
flag, and its name equals the chat's primary name, falling back to the
`formattedTitle` field exactly when the primary name is absent or
empty. -/
theorem C8_chats_success_projection (chats : List Chat) :
    (chatsEndpoint (Except.ok chats)).status = 200 ∧
    (chatsEndpoint (Except.ok chats)).body = ChatsBody.chats (chats.map projectChat) ∧
    (chats.map projectChat).length = chats.length ∧
    (∀ c : Chat,
      (projectChat c).id = c.idSerialized ∧
      (projectChat c).isGroup = c.isGroup ∧
      ((c.name = none ∨ c.name = some "") →
        (projectChat c).name = c.formattedTitle) ∧
      (∀ n : String, c.name = some n → n ≠ "" →
        (projectChat c).name = some n)) := by
  refine ⟨rfl, rfl, chats.length_map projectChat, ?_⟩
  intro c
  refine ⟨rfl, rfl, ?_, ?_⟩
  · rintro (h | h) <;> simp [projectChat, h]
  · rintro n h hn
    simp [projectChat, h, hn]

/-- C8 witness: on a concrete two-chat list — one with a nonempty
primary name, one with an empty primary name and a formatted title —
the statement evaluates as proved. -/
theorem C8_witness :
    (projectChat { idSerialized := some "123@c.us", name := some "Alice",
                   formattedTitle := some "ignored", isGroup := false }).name
      = some "Alice" ∧
    (projectChat { idSerialized := some "456@g.us", name := some "",
                   formattedTitle := some "Group Title", isGroup := true }).name
      = some "Group Title" ∧
    (chatsEndpoint (Except.ok [])).status = 200 :=
  ⟨((C8_chats_success_projection []).2.2.2
      { idSerialized := some "123@c.us", name := some "Alice",
        formattedTitle := some "ignored", isGroup := false }).2.2.2
      "Alice" rfl (by decide),
   ((C8_chats_success_projection []).2.2.2
      { idSerialized := some "456@g.us", name := some "",
        formattedTitle := some "Group Title", isGroup := true }).2.2.1
      (Or.inr rfl),
   (C8_chats_success_projection []).1⟩

/-- C9: whenever the underlying `getChats` call throws or rejects with
message m, GET /chats answers with status 500 and body error m; the
handler makes its single call inside one try/catch and does not
retry. -/
theorem C9_chats_failure_500 (m : String) :
    (chatsEndpoint (Except.error m)).status = 500 ∧
    (chatsEndpoint (Except.error m)).body = ChatsBody.err m :=
  ⟨rfl, rfl⟩

/-- C10: a `disconnected` event writes only `isReady`,
`lastDisconnect` and the reconnect schedule: `isAuthenticated`,
`lastQr` and `lastAuthFailure` are unchanged; hence after a disconnect
from an authenticated session, /health and /status report
authenticated = true with ready = false; and `lastDisconnect`, once
set, is never cleared by any later lifecycle event. -/
theorem C10_disconnected_frame (s : State) (reason : Option String) :
    (handleEvent s (WaEvent.disconnected reason)).isAuthenticated = s.isAuthenticated ∧
    (handleEvent s (WaEvent.disconnected reason)).lastQr = s.lastQr ∧
    (handleEvent s (WaEvent.disconnected reason)).lastAuthFailure = s.lastAuthFailure ∧
    (s.isAuthenticated = true →
      (healthEndpoint (handleEvent s (WaEvent.disconnected reason))).authenticated = true ∧
      (healthEndpoint (handleEvent s (WaEvent.disconnected reason))).ready = false ∧
      (statusEndpoint (handleEvent s (WaEvent.disconnected reason))).authenticated = true ∧
      (statusEndpoint (handleEvent s (WaEvent.disconnected reason))).ready = false) ∧
    (∀ (t : State) (e : WaEvent), t.lastDisconnect ≠ none →
      (handleEvent t e).lastDisconnect ≠ none) := by
  refine ⟨rfl, rfl, rfl, ?_, ?_⟩
  · intro h
    exact ⟨h, rfl, h, rfl⟩
  · intro t e ht
    cases e with
    | qr enc => cases enc <;> exact ht
    | ready => exact ht
    | authenticated => exact ht
    | auth_failure msg => exact ht
    | disconnected r => simp [handleEvent]

/-- C10 witness: a disconnect from a concrete authenticated session
keeps authenticated = true while ready becomes false, and a later
`authenticated` event does not clear the recorded disconnect reason. -/
theorem C10_witness :
    (healthEndpoint (handleEvent
      { initState with isAuthenticated := true, isReady := true }
      (WaEvent.disconnected (some "NAVIGATION")))).authenticated = true ∧
    (healthEndpoint (handleEvent
      { initState with isAuthenticated := true, isReady := true }
      (WaEvent.disconnected (some "NAVIGATION")))).ready = false ∧
    (handleEvent { initState with lastDisconnect := some "NAVIGATION" }
      WaEvent.authenticated).lastDisconnect ≠ none :=
  ⟨((C10_disconnected_frame
      { initState with isAuthenticated := true, isReady := true }
      (some "NAVIGATION")).2.2.2.1 rfl).1,
   ((C10_disconnected_frame
      { initState with isAuthenticated := true, isReady := true }
      (some "NAVIGATION")).2.2.2.1 rfl).2.1,
   (C10_disconnected_frame initState none).2.2.2.2
      { initState with lastDisconnect := some "NAVIGATION" }
      WaEvent.authenticated (by decide)⟩

end WhatsappService
